import Mathlib

/-!
Automod bot handlers (`automod/bot.go`)

A shallow embedding of the message handler `HandleMessageCreate`, the cached
configuration lookup `CachedGetConfig` and the rules-updated handler
`HandleUpdateAutomodRules`.

Calls into collaborators (the discord session, redis, the moderation package,
the logger, the rule implementations) are treated as follows: what a call
returns is an input of the run, collected in `World`; that the call happened is
recorded as an `Effect` in the trace the handler returns.
-/

namespace Automod

/-- Modelled from the spec: the `Punishment` declaration is outside `bot.go`;
the spec gives the ordered severity scale None < Mute < Kick < Ban. -/
inductive Punishment
  | PunishNone
  | PunishMute
  | PunishKick
  | PunishBan
  deriving DecidableEq, Repr

open Punishment

/-- Position of a punishment on the severity scale (the integer value the
comparison `punishment > highestPunish` works on). -/
def Punishment.severity : Punishment → Nat
  | PunishNone => 0
  | PunishMute => 1
  | PunishKick => 2
  | PunishBan => 3

instance : LT Punishment := ⟨fun a b => a.severity < b.severity⟩

instance : LE Punishment := ⟨fun a b => a.severity ≤ b.severity⟩

instance (a b : Punishment) : Decidable (a < b) :=
  inferInstanceAs (Decidable (a.severity < b.severity))

instance (a b : Punishment) : Decidable (a ≤ b) :=
  inferInstanceAs (Decidable (a.severity ≤ b.severity))

/-- The fields of `discordgo.User` the handler reads. -/
structure User where
  ID : String
  deriving DecidableEq, Repr

/-- The fields of `discordgo.Member` the handler reads. -/
structure Member where
  User : User
  deriving DecidableEq, Repr

/-- The fields of `discordgo.MessageCreate` the handler reads. -/
structure MessageCreate where
  ID : String
  ChannelID : String
  Author : User
  deriving DecidableEq, Repr

/-- The fields of `discordgo.Channel` the handler reads. -/
structure Channel where
  ID : String
  GuildID : String
  IsPrivate : Bool
  deriving DecidableEq, Repr

/-- The fields of `discordgo.Guild` the handler reads. -/
structure Guild where
  ID : String
  Name : String
  deriving DecidableEq, Repr

/-- The fields of `bot.Event` the handler reads. -/
structure Event where
  TargetGuild : String

/-- The four results of `r.Check(evt, channel, client)`:
`d, punishment, msg, err` (`err = none` is Go's `nil`). -/
structure CheckResult where
  d : Bool
  punishment : Punishment
  msg : String
  err : Option String

/-- The `Rule` interface as the handler uses it: the three methods
`ShouldIgnore`, `Check` and `GetMuteDuration`. The implementations live outside
`bot.go`, so a rule is given by what its methods return. -/
structure Rule where
  ShouldIgnore : MessageCreate → Member → Bool
  Check : MessageCreate → Channel → CheckResult
  GetMuteDuration : Int

/-- The six slots of the rule list, used to label the calls in the trace. -/
inductive RuleKind
  | spam
  | invite
  | mention
  | links
  | words
  | sites
  deriving DecidableEq, Repr

/-- The fields of `Config` the handlers read. -/
structure Config where
  Enabled : Bool
  Spam : Rule
  Invite : Rule
  Mention : Rule
  Links : Rule
  Words : Rule
  Sites : Rule

/-- One observable step of a run: a call into a collaborator. -/
inductive Effect
  | CacheGet (key : String)
  | GetConfig (gID : String)
  | GetCompiled (k : RuleKind)
  | LogError (text : String) (err : String)
  | LogInfo (text : String)
  | RLock
  | RUnlock
  | ShouldIgnore (k : RuleKind)
  | Check (k : RuleKind)
  | GetMuteDuration (k : RuleKind)
  | ChannelMessageDelete (channelID : String) (messageID : String)
  | SendDM (userID : String) (text : String)
  | MuteUnmuteUser (mute : Bool) (guildID : String) (channelID : String)
      (reason : String) (message : String) (member : Member) (duration : Int)
  | KickUser (guildID : String) (channelID : String) (reason : String)
      (message : String) (user : User)
  | BanUser (guildID : String) (channelID : String) (reason : String)
      (message : String) (user : User)
  deriving DecidableEq, Repr

/-- Modelled from the spec: `bot.Cache` is declared outside `bot.go`; it is a
process-wide key-value store, here an association list from keys to stored
configs, read with `Get` and evicted with `Delete`. -/
abbrev Cache := List (String × Config)

/-- The lookup `bot.Cache.Get(key)`: the value stored under `key`, if any. -/
def Cache.Get (c : Cache) (key : String) : Option Config :=
  (c.find? (fun e => e.1 == key)).map (fun e => e.2)

/-- The eviction `bot.Cache.Delete(key)`: removes whatever is stored under `key`. -/
def Cache.Delete (c : Cache) (key : String) : Cache :=
  c.filter (fun e => !(e.1 == key))

/-- What the collaborators answer during one run. `none` as an error result is
Go's `nil`. The key functions `KeyConfig` and `KeyAllRules` and the rule method
`GetCompiled` are declared outside `bot.go` and are taken as parameters. -/
structure World where
  KeyConfig : String → String
  KeyAllRules : String → String
  GetConfig : String → Except String Config
  GetCompiled : Rule → Rule
  LogGetChannel : String → Option Channel
  LogGetGuild : String → Option Guild
  StateMember : String → String → Except String Member
  ChannelMessageDelete : String → String → Option String
  SendDM : String → String → Option String
  MuteUnmuteUser : Bool → String → String → String → String → Member → Int → Option String
  KickUser : String → String → String → String → User → Option String
  BanUser : String → String → String → String → User → Option String

/-- The handler `HandleUpdateAutomodRules`:
`bot.Cache.Delete(KeyAllRules(event.TargetGuild))`. -/
def HandleUpdateAutomodRules (w : World) (cache : Cache) (event : Event) : Cache :=
  cache.Delete (w.KeyAllRules event.TargetGuild)

/-- The lookup `CachedGetConfig`: returns the result `(conf, err)`, the cache as the call
leaves it, and the calls it made. The body has no store into `bot.Cache`. -/
def CachedGetConfig (w : World) (cache : Cache) (gID : String) :
    Except String Config × Cache × List Effect :=
  match cache.Get (w.KeyConfig gID) with
  | some config => (.ok config, cache, [Effect.CacheGet (w.KeyConfig gID)])
  | none =>
    match w.GetConfig gID with
    | .ok conf =>
      (.ok { conf with Sites := w.GetCompiled conf.Sites, Words := w.GetCompiled conf.Words },
        cache,
        [Effect.CacheGet (w.KeyConfig gID), Effect.GetConfig gID,
          Effect.GetCompiled RuleKind.sites, Effect.GetCompiled RuleKind.words])
    | .error err =>
      (.error err, cache, [Effect.CacheGet (w.KeyConfig gID), Effect.GetConfig gID])

/-- The local variables of the rule loop (`del`, `punishMsg`, `highestPunish`,
`muteDuration`) together with the calls made so far. -/
structure LoopState where
  del : Bool
  punishMsg : String
  highestPunish : Punishment
  muteDuration : Int
  trace : List Effect

/-- The values of the loop variables before the loop (lines 77-80). -/
def LoopState.init : LoopState :=
  { del := false, punishMsg := "", highestPunish := PunishNone, muteDuration := 0, trace := [] }

/-- One iteration of `for _, r := range rules` (lines 86-111). -/
def loopBody (evt : MessageCreate) (member : Member) (channel : Channel)
    (st : LoopState) (kr : RuleKind × Rule) : LoopState :=
  let st1 := { st with trace := st.trace ++ [Effect.ShouldIgnore kr.1] }
  if kr.2.ShouldIgnore evt member then st1
  else
    let res := kr.2.Check evt channel
    let st2 := { st1 with
      trace := st1.trace ++ [Effect.Check kr.1],
      del := if res.d then true else st1.del }
    match res.err with
    | some e =>
      { st2 with trace := st2.trace ++ [Effect.LogError "Failed checking aumod rule:" e] }
    | none =>
      if !res.d then st2
      else
        let st3 := { st2 with punishMsg := st2.punishMsg ++ (res.msg ++ "\n") }
        if st3.highestPunish < res.punishment then
          { st3 with
            highestPunish := res.punishment,
            muteDuration := kr.2.GetMuteDuration,
            trace := st3.trace ++ [Effect.GetMuteDuration kr.1] }
        else st3

/-- The rule list of line 82, each rule with the label of its slot. -/
def rules (config : Config) : List (RuleKind × Rule) :=
  [(RuleKind.spam, config.Spam), (RuleKind.invite, config.Invite),
    (RuleKind.mention, config.Mention), (RuleKind.links, config.Links),
    (RuleKind.words, config.Words), (RuleKind.sites, config.Sites)]

/-- The whole loop of lines 86-111 over a rule list, from a given state. -/
def ruleLoopFrom (evt : MessageCreate) (member : Member) (channel : Channel)
    (st : LoopState) (rs : List (RuleKind × Rule)) : LoopState :=
  rs.foldl (loopBody evt member channel) st

/-- The loop of lines 77-111: the variables start at their initial values. -/
def ruleLoop (evt : MessageCreate) (member : Member) (channel : Channel)
    (rs : List (RuleKind × Rule)) : LoopState :=
  ruleLoopFrom evt member channel LoopState.init rs

/-- The tail of the handler, lines 132-134: the error of the switch is logged. -/
def logPunishErr (err : Option String) : List Effect :=
  match err with
  | some e => [Effect.LogError "Error carrying out punishment" e]
  | none => []

/-- The text of the private notice in the `PunishNone` branch. -/
def noticeNone (guild : Guild) (punishMsg : String) : String :=
  "**Automoderator for " ++ guild.Name ++ ", Rule violations:**\n" ++ punishMsg ++
    "\nRepeating this offence may cause you a kick, mute or ban."

/-- The text of the private notice in the `PunishMute` branch. -/
def noticeMute (guild : Guild) (punishMsg : String) : String :=
  "**Automoderator for " ++ guild.Name ++ ": You have been muted\n Rule violations:**\n" ++
    punishMsg ++ "\n"

/-- The `switch highestPunish` of lines 120-134. -/
def punish (w : World) (channel : Channel) (guild : Guild) (member : Member)
    (highestPunish : Punishment) (punishMsg : String) (muteDuration : Int) : List Effect :=
  match highestPunish with
  | PunishNone =>
    Effect.SendDM member.User.ID (noticeNone guild punishMsg) ::
      logPunishErr (w.SendDM member.User.ID (noticeNone guild punishMsg))
  | PunishMute =>
    Effect.SendDM member.User.ID (noticeMute guild punishMsg) ::
    Effect.MuteUnmuteUser true channel.GuildID channel.ID "Automod" punishMsg member muteDuration ::
      logPunishErr
        (w.MuteUnmuteUser true channel.GuildID channel.ID "Automod" punishMsg member muteDuration)
  | PunishKick =>
    Effect.KickUser channel.GuildID channel.ID "Automod" punishMsg member.User ::
      logPunishErr (w.KickUser channel.GuildID channel.ID "Automod" punishMsg member.User)
  | PunishBan =>
    Effect.BanUser channel.GuildID channel.ID "Automod" punishMsg member.User ::
      logPunishErr (w.BanUser channel.GuildID channel.ID "Automod" punishMsg member.User)

/-- Lines 114-134: the deletion, then the switch; nothing when `del` is false. -/
def dispatch (w : World) (evt : MessageCreate) (channel : Channel) (guild : Guild)
    (member : Member) (st : LoopState) : List Effect :=
  if st.del then
    Effect.ChannelMessageDelete evt.ChannelID evt.ID ::
      punish w channel guild member st.highestPunish st.punishMsg st.muteDuration
  else []

/-- Lines 77-134: the rule loop under the read lock, then the dispatch. -/
def moderate (w : World) (evt : MessageCreate) (channel : Channel) (guild : Guild)
    (config : Config) (member : Member) : List Effect :=
  Effect.RLock :: ((ruleLoop evt member channel (rules config)).trace ++
    Effect.RUnlock :: dispatch w evt channel guild member
      (ruleLoop evt member channel (rules config)))

/-- The handler `HandleMessageCreate`: the calls it makes, in order. -/
def HandleMessageCreate (w : World) (cache : Cache) (evt : MessageCreate) : List Effect :=
  match w.LogGetChannel evt.ChannelID with
  | none => []
  | some channel =>
    if channel.IsPrivate then []
    else
      match w.LogGetGuild channel.GuildID with
      | none => []
      | some guild =>
        match CachedGetConfig w cache guild.ID with
        | (.error err, _, tr) => tr ++ [Effect.LogError "Failed retrieving config" err]
        | (.ok config, _, tr) =>
          if !config.Enabled then tr ++ [Effect.LogInfo "Automoderator is disabled"]
          else
            match w.StateMember guild.ID evt.Author.ID with
            | .error err => tr ++ [Effect.LogError "Failed finding guild member" err]
            | .ok member => tr ++ moderate w evt channel guild config member

/-! Observations on rules and traces, used to state the properties. -/

/-- A rule is triggered on a message when it is not ignored and its `Check`
returns no error with the deletion flag set. -/
def triggered (evt : MessageCreate) (member : Member) (channel : Channel)
    (kr : RuleKind × Rule) : Bool :=
  !kr.2.ShouldIgnore evt member && ((kr.2.Check evt channel).err.isNone &&
    (kr.2.Check evt channel).d)

/-- A rule asks for the deletion when it is not ignored and its `Check` returns
the deletion flag set (with or without an error). -/
def asksDeletion (evt : MessageCreate) (member : Member) (channel : Channel)
    (kr : RuleKind × Rule) : Bool :=
  !kr.2.ShouldIgnore evt member && (kr.2.Check evt channel).d

/-- The triggered rules of a list, in evaluation order. -/
def triggeredRules (evt : MessageCreate) (member : Member) (channel : Channel)
    (rs : List (RuleKind × Rule)) : List (RuleKind × Rule) :=
  rs.filter (triggered evt member channel)

/-- The line a triggered rule adds to the combined message. -/
def violationLine (evt : MessageCreate) (channel : Channel) (kr : RuleKind × Rule) : String :=
  (kr.2.Check evt channel).msg ++ "\n"

/-- The calls of lines 114-129: deletion, private notice, mute, kick, ban. -/
def Effect.isDispatch : Effect → Bool
  | .ChannelMessageDelete _ _ => true
  | .SendDM _ _ => true
  | .MuteUnmuteUser _ _ _ _ _ _ _ => true
  | .KickUser _ _ _ _ _ => true
  | .BanUser _ _ _ _ _ => true
  | _ => false

/-- The three punishment actions: mute, kick, ban. -/
def Effect.isPunishAction : Effect → Bool
  | .MuteUnmuteUser _ _ _ _ _ _ _ => true
  | .KickUser _ _ _ _ _ => true
  | .BanUser _ _ _ _ _ => true
  | _ => false

/-- The calls on a rule: `ShouldIgnore`, `Check`, `GetMuteDuration`. -/
def Effect.isRuleCall : Effect → Bool
  | .ShouldIgnore _ => true
  | .Check _ => true
  | .GetMuteDuration _ => true
  | _ => false

/-- The two calls on the read lock. -/
def Effect.isLock : Effect → Bool
  | .RLock => true
  | .RUnlock => true
  | _ => false

/-- The log entries. -/
def Effect.isLog : Effect → Bool
  | .LogError _ _ => true
  | .LogInfo _ => true
  | _ => false

/-- The calls of `CachedGetConfig`. -/
def Effect.isConfigCall : Effect → Bool
  | .CacheGet _ => true
  | .GetConfig _ => true
  | .GetCompiled _ => true
  | _ => false

/-- The calls made inside the loop: the rule calls and the log entry of a failed
`Check`. -/
def Effect.isLoopEffect : Effect → Bool
  | .ShouldIgnore _ => true
  | .Check _ => true
  | .GetMuteDuration _ => true
  | .LogError _ _ => true
  | _ => false

/-- The run gets past every early return of lines 46-75 with the given channel,
guild, config and member. -/
structure Reaches (w : World) (cache : Cache) (evt : MessageCreate) (channel : Channel)
    (guild : Guild) (config : Config) (member : Member) : Prop where
  hChannel : w.LogGetChannel evt.ChannelID = some channel
  hPublic : channel.IsPrivate = false
  hGuild : w.LogGetGuild channel.GuildID = some guild
  hConfig : (CachedGetConfig w cache guild.ID).1 = Except.ok config
  hEnabled : config.Enabled = true
  hMember : w.StateMember guild.ID evt.Author.ID = Except.ok member

/-- The message-deletion request. -/
def Effect.isDelete : Effect → Bool
  | .ChannelMessageDelete _ _ => true
  | _ => false

/-- The private notice. -/
def Effect.isNotice : Effect → Bool
  | .SendDM _ _ => true
  | _ => false

/-- The mute action. -/
def Effect.isMute : Effect → Bool
  | .MuteUnmuteUser _ _ _ _ _ _ _ => true
  | _ => false

/-- The kick action. -/
def Effect.isKick : Effect → Bool
  | .KickUser _ _ _ _ _ => true
  | _ => false

/-- The ban action. -/
def Effect.isBan : Effect → Bool
  | .BanUser _ _ _ _ _ => true
  | _ => false

/-- The punishment level a trace shows: the level of the ban, kick or mute call
in it; None when it only has a private notice; nothing when it has none of them. -/
def dispatchedPunishment (tr : List Effect) : Option Punishment :=
  if tr.any Effect.isBan then some PunishBan
  else if tr.any Effect.isKick then some PunishKick
  else if tr.any Effect.isMute then some PunishMute
  else if tr.any Effect.isNotice then some PunishNone
  else none

/-- The calls of lines 114-129 for a deletion decision and a punishment level,
without the log entry. -/
def dispatchCalls (evt : MessageCreate) (channel : Channel) (guild : Guild) (member : Member)
    (st : LoopState) : List Effect :=
  if st.del then
    Effect.ChannelMessageDelete evt.ChannelID evt.ID ::
      (match st.highestPunish with
      | PunishNone => [Effect.SendDM member.User.ID (noticeNone guild st.punishMsg)]
      | PunishMute =>
        [Effect.SendDM member.User.ID (noticeMute guild st.punishMsg),
          Effect.MuteUnmuteUser true channel.GuildID channel.ID "Automod" st.punishMsg member
            st.muteDuration]
      | PunishKick =>
        [Effect.KickUser channel.GuildID channel.ID "Automod" st.punishMsg member.User]
      | PunishBan =>
        [Effect.BanUser channel.GuildID channel.ID "Automod" st.punishMsg member.User])
  else []

/-! Sample inputs. -/

/-- A rule with fixed answers. -/
def sampleRule (ignore : Bool) (d : Bool) (p : Punishment) (msg : String)
    (err : Option String) (duration : Int) : Rule :=
  { ShouldIgnore := fun _ _ => ignore,
    Check := fun _ _ => { d := d, punishment := p, msg := msg, err := err },
    GetMuteDuration := duration }

/-- A rule that finds nothing. -/
def quietRule : Rule := sampleRule false false PunishNone "" none 0

/-- A config whose word rule mutes for 10 minutes and whose site rule kicks. -/
def sampleConfig : Config :=
  { Enabled := true, Spam := quietRule, Invite := quietRule, Mention := quietRule,
    Links := quietRule,
    Words := sampleRule false true PunishMute "banned word" none 10,
    Sites := sampleRule false true PunishKick "banned site" none 0 }

/-- A config whose mention rule mutes for 5 minutes and whose word rule mutes for 10. -/
def sampleMuteConfig : Config :=
  { Enabled := true, Spam := quietRule, Invite := quietRule,
    Mention := sampleRule false true PunishMute "too many mentions" none 5,
    Links := quietRule,
    Words := sampleRule false true PunishMute "banned word" none 10,
    Sites := quietRule }

/-- A config whose invite rule fails with its deletion flag set. -/
def sampleErrConfig : Config :=
  { Enabled := true, Spam := quietRule,
    Invite := sampleRule false true PunishBan "invite" (some "redis down") 7,
    Mention := quietRule, Links := quietRule, Words := quietRule, Sites := quietRule }

/-- The same config with the invite rule ignored. -/
def sampleIgnoredConfig : Config :=
  { Enabled := true, Spam := quietRule,
    Invite := sampleRule true true PunishBan "invite" (some "redis down") 7,
    Mention := quietRule, Links := quietRule, Words := quietRule, Sites := quietRule }

/-- A guild channel. -/
def sampleChannel : Channel := { ID := "c1", GuildID := "g1", IsPrivate := false }

/-- A guild. -/
def sampleGuild : Guild := { ID := "g1", Name := "Guild" }

/-- A member. -/
def sampleMember : Member := { User := { ID := "u1" } }

/-- A message of that member in that channel. -/
def sampleEvt : MessageCreate := { ID := "m1", ChannelID := "c1", Author := { ID := "u1" } }

/-- A world that stores `config` for every guild, with the given results of the
deletion request, of the private notice and of the mute, kick and ban actions.
Its two key functions use different name spaces. -/
def sampleWorld (config : Config) (deleteErr : Option String) (dmErr : Option String)
    (actionErr : Option String) : World :=
  { KeyConfig := fun g => "automod_config:" ++ g,
    KeyAllRules := fun g => "automod_rules:" ++ g,
    GetConfig := fun _ => Except.ok config,
    GetCompiled := fun r => r,
    LogGetChannel := fun _ => some sampleChannel,
    LogGetGuild := fun _ => some sampleGuild,
    StateMember := fun _ _ => Except.ok sampleMember,
    ChannelMessageDelete := fun _ _ => deleteErr,
    SendDM := fun _ _ => dmErr,
    MuteUnmuteUser := fun _ _ _ _ _ _ _ => actionErr,
    KickUser := fun _ _ _ _ _ => actionErr,
    BanUser := fun _ _ _ _ _ => actionErr }

/-- The rule `r` with `ShouldIgnore` answering true: the rule as the loop sees it
when it is ignored. -/
def ignoredRule (r : Rule) : Rule :=
  { r with ShouldIgnore := fun _ _ => true }

/-! Facts on the severity order. -/

theorem Punishment.lt_def (a b : Punishment) : a < b ↔ a.severity < b.severity := Iff.rfl

theorem Punishment.le_def (a b : Punishment) : a ≤ b ↔ a.severity ≤ b.severity := Iff.rfl

theorem Punishment.severity_inj {a b : Punishment} (h : a.severity = b.severity) : a = b := by
  cases a <;> cases b <;> simp [Punishment.severity] at h <;> rfl

/-! One iteration of the loop, variable by variable. -/

theorem loopBody_highestPunish (evt : MessageCreate) (member : Member) (channel : Channel)
    (st : LoopState) (kr : RuleKind × Rule) :
    (loopBody evt member channel st kr).highestPunish =
      if triggered evt member channel kr = true ∧
          st.highestPunish < (kr.2.Check evt channel).punishment
      then (kr.2.Check evt channel).punishment else st.highestPunish := by
  unfold loopBody triggered
  cases hi : kr.2.ShouldIgnore evt member <;> cases he : (kr.2.Check evt channel).err <;>
    cases hd : (kr.2.Check evt channel).d <;>
    by_cases hp : st.highestPunish < (kr.2.Check evt channel).punishment <;> simp [hi, he, hd, hp]

theorem loopBody_muteDuration (evt : MessageCreate) (member : Member) (channel : Channel)
    (st : LoopState) (kr : RuleKind × Rule) :
    (loopBody evt member channel st kr).muteDuration =
      if triggered evt member channel kr = true ∧
          st.highestPunish < (kr.2.Check evt channel).punishment
      then kr.2.GetMuteDuration else st.muteDuration := by
  unfold loopBody triggered
  cases hi : kr.2.ShouldIgnore evt member <;> cases he : (kr.2.Check evt channel).err <;>
    cases hd : (kr.2.Check evt channel).d <;>
    by_cases hp : st.highestPunish < (kr.2.Check evt channel).punishment <;> simp [hi, he, hd, hp]

theorem loopBody_punishMsg (evt : MessageCreate) (member : Member) (channel : Channel)
    (st : LoopState) (kr : RuleKind × Rule) :
    (loopBody evt member channel st kr).punishMsg =
      if triggered evt member channel kr = true
      then st.punishMsg ++ violationLine evt channel kr else st.punishMsg := by
  unfold loopBody triggered violationLine
  cases hi : kr.2.ShouldIgnore evt member <;> cases he : (kr.2.Check evt channel).err <;>
    cases hd : (kr.2.Check evt channel).d <;>
    by_cases hp : st.highestPunish < (kr.2.Check evt channel).punishment <;> simp [hi, he, hd, hp]

theorem loopBody_del (evt : MessageCreate) (member : Member) (channel : Channel)
    (st : LoopState) (kr : RuleKind × Rule) :
    (loopBody evt member channel st kr).del =
      (st.del || asksDeletion evt member channel kr) := by
  unfold loopBody asksDeletion
  cases hi : kr.2.ShouldIgnore evt member <;> cases he : (kr.2.Check evt channel).err <;>
    cases hd : (kr.2.Check evt channel).d <;>
    by_cases hp : st.highestPunish < (kr.2.Check evt channel).punishment <;> simp [hi, he, hd, hp]

theorem ruleLoopFrom_cons (evt : MessageCreate) (member : Member) (channel : Channel)
    (st : LoopState) (kr : RuleKind × Rule) (rs : List (RuleKind × Rule)) :
    ruleLoopFrom evt member channel st (kr :: rs) =
      ruleLoopFrom evt member channel (loopBody evt member channel st kr) rs := rfl

theorem ruleLoopFrom_nil (evt : MessageCreate) (member : Member) (channel : Channel)
    (st : LoopState) : ruleLoopFrom evt member channel st [] = st := rfl

/-! The loop over a rule list, variable by variable. -/

theorem ruleLoopFrom_del (evt : MessageCreate) (member : Member) (channel : Channel)
    (rs : List (RuleKind × Rule)) (st : LoopState) :
    (ruleLoopFrom evt member channel st rs).del =
      (st.del || rs.any (asksDeletion evt member channel)) := by
  induction rs generalizing st with
  | nil => simp [ruleLoopFrom_nil]
  | cons kr rs ih =>
    rw [ruleLoopFrom_cons, ih, loopBody_del, List.any_cons, Bool.or_assoc]

theorem ruleLoopFrom_punishMsg (evt : MessageCreate) (member : Member) (channel : Channel)
    (rs : List (RuleKind × Rule)) (st : LoopState) :
    (ruleLoopFrom evt member channel st rs).punishMsg =
      ((triggeredRules evt member channel rs).map (violationLine evt channel)).foldl
        (fun acc line => acc ++ line) st.punishMsg := by
  induction rs generalizing st with
  | nil => simp [ruleLoopFrom_nil, triggeredRules]
  | cons kr rs ih =>
    rw [ruleLoopFrom_cons, ih, loopBody_punishMsg]
    by_cases h : triggered evt member channel kr = true
    · simp [triggeredRules, List.filter_cons, h]
    · simp [triggeredRules, List.filter_cons, h]

theorem loopBody_highestPunish_le (evt : MessageCreate) (member : Member) (channel : Channel)
    (st : LoopState) (kr : RuleKind × Rule) :
    st.highestPunish ≤ (loopBody evt member channel st kr).highestPunish := by
  rw [loopBody_highestPunish]
  split
  · rename_i h
    have := h.2
    rw [Punishment.lt_def] at this
    rw [Punishment.le_def]
    omega
  · rw [Punishment.le_def]

theorem ruleLoopFrom_highestPunish_le (evt : MessageCreate) (member : Member)
    (channel : Channel) (rs : List (RuleKind × Rule)) (st : LoopState) :
    st.highestPunish ≤ (ruleLoopFrom evt member channel st rs).highestPunish := by
  induction rs generalizing st with
  | nil => rw [ruleLoopFrom_nil, Punishment.le_def]
  | cons kr rs ih =>
    rw [ruleLoopFrom_cons]
    have h1 := loopBody_highestPunish_le evt member channel st kr
    have h2 := ih (loopBody evt member channel st kr)
    rw [Punishment.le_def] at *
    omega

theorem ruleLoopFrom_highestPunish_ub (evt : MessageCreate) (member : Member)
    (channel : Channel) (rs : List (RuleKind × Rule)) (st : LoopState) :
    ∀ kr ∈ triggeredRules evt member channel rs,
      (kr.2.Check evt channel).punishment ≤
        (ruleLoopFrom evt member channel st rs).highestPunish := by
  induction rs generalizing st with
  | nil => simp [triggeredRules]
  | cons r rs ih =>
    intro kr hkr
    rw [ruleLoopFrom_cons]
    simp only [triggeredRules, List.mem_filter, List.mem_cons] at hkr
    rcases hkr with ⟨hmem, htr⟩
    rcases hmem with rfl | hmem
    · have h1 := ruleLoopFrom_highestPunish_le evt member channel rs
        (loopBody evt member channel st kr)
      have h2 := loopBody_highestPunish evt member channel st kr
      by_cases hlt : st.highestPunish < (kr.2.Check evt channel).punishment
      · rw [if_pos ⟨htr, hlt⟩] at h2
        rw [h2] at h1
        exact h1
      · rw [if_neg (fun h => hlt h.2)] at h2
        rw [h2] at h1
        rw [Punishment.lt_def] at hlt
        rw [Punishment.le_def] at *
        omega
    · exact ih _ kr (by simp [triggeredRules, List.mem_filter, hmem, htr])

theorem ruleLoopFrom_highestPunish_attained (evt : MessageCreate) (member : Member)
    (channel : Channel) (rs : List (RuleKind × Rule)) (st : LoopState) :
    (ruleLoopFrom evt member channel st rs).highestPunish = st.highestPunish ∨
      ∃ kr ∈ triggeredRules evt member channel rs,
        (kr.2.Check evt channel).punishment =
          (ruleLoopFrom evt member channel st rs).highestPunish := by
  induction rs generalizing st with
  | nil => left; rfl
  | cons r rs ih =>
    rw [ruleLoopFrom_cons]
    rcases ih (loopBody evt member channel st r) with h | ⟨kr, hkr, hp⟩
    · rw [h, loopBody_highestPunish]
      by_cases hc : triggered evt member channel r = true ∧
          st.highestPunish < (r.2.Check evt channel).punishment
      · right
        refine ⟨r, ?_, ?_⟩
        · simp [triggeredRules, List.filter_cons, hc.1]
        · rw [if_pos hc]
      · left
        rw [if_neg hc]
    · right
      refine ⟨kr, ?_, hp⟩
      simp only [triggeredRules, List.mem_filter, List.mem_cons] at hkr ⊢
      exact ⟨Or.inr hkr.1, hkr.2⟩

theorem ruleLoopFrom_muteDuration_keep (evt : MessageCreate) (member : Member)
    (channel : Channel) (rs : List (RuleKind × Rule)) (st : LoopState)
    (h : (ruleLoopFrom evt member channel st rs).highestPunish = st.highestPunish) :
    (ruleLoopFrom evt member channel st rs).muteDuration = st.muteDuration := by
  induction rs generalizing st with
  | nil => rfl
  | cons r rs ih =>
    rw [ruleLoopFrom_cons] at h ⊢
    have h1 := ruleLoopFrom_highestPunish_le evt member channel rs
      (loopBody evt member channel st r)
    have h2 := loopBody_highestPunish_le evt member channel st r
    have h3 : (loopBody evt member channel st r).highestPunish = st.highestPunish := by
      apply Punishment.severity_inj
      rw [h] at h1
      rw [Punishment.le_def] at h1 h2
      omega
    rw [ih _ (by rw [h, h3]), loopBody_muteDuration]
    rw [loopBody_highestPunish] at h3
    by_cases hc : triggered evt member channel r = true ∧
        st.highestPunish < (r.2.Check evt channel).punishment
    · rw [if_pos hc] at h3
      have := hc.2
      rw [h3, Punishment.lt_def] at this
      omega
    · rw [if_neg hc]

theorem ruleLoopFrom_muteDuration_first (evt : MessageCreate) (member : Member)
    (channel : Channel) (rs : List (RuleKind × Rule)) (st : LoopState)
    (h0 : st.highestPunish = PunishNone)
    (h : (ruleLoopFrom evt member channel st rs).highestPunish = PunishMute) :
    ∃ kr, (triggeredRules evt member channel rs).find?
        (fun r => decide ((r.2.Check evt channel).punishment = PunishMute)) = some kr ∧
      (ruleLoopFrom evt member channel st rs).muteDuration = kr.2.GetMuteDuration := by
  induction rs generalizing st with
  | nil =>
    rw [ruleLoopFrom_nil, h0] at h
    cases h
  | cons r rs ih =>
    rw [ruleLoopFrom_cons] at h ⊢
    have hhp := loopBody_highestPunish evt member channel st r
    have hmd := loopBody_muteDuration evt member channel st r
    by_cases htr : triggered evt member channel r = true
    · cases hp : (r.2.Check evt channel).punishment with
      | PunishNone =>
        have hlt : ¬ st.highestPunish < (r.2.Check evt channel).punishment := by
          rw [hp, h0, Punishment.lt_def]; simp
        rw [if_neg (fun c => hlt c.2)] at hhp
        obtain ⟨kr, hf, hd⟩ := ih _ (by rw [hhp, h0]) h
        refine ⟨kr, ?_, hd⟩
        simp only [triggeredRules, List.filter_cons, htr, if_true] at hf ⊢
        rw [List.find?_cons]
        simp [hp, hf]
      | PunishMute =>
        have hlt : st.highestPunish < (r.2.Check evt channel).punishment := by
          rw [hp, h0, Punishment.lt_def]; simp [Punishment.severity]
        rw [if_pos ⟨htr, hlt⟩] at hhp hmd
        refine ⟨r, ?_, ?_⟩
        · simp only [triggeredRules, List.filter_cons, htr, if_true]
          rw [List.find?_cons]
          simp [hp]
        · rw [ruleLoopFrom_muteDuration_keep _ _ _ _ _ (by rw [h, hhp, hp]), hmd]
      | PunishKick =>
        have hlt : st.highestPunish < (r.2.Check evt channel).punishment := by
          rw [hp, h0, Punishment.lt_def]; simp [Punishment.severity]
        rw [if_pos ⟨htr, hlt⟩] at hhp
        have hle := ruleLoopFrom_highestPunish_le evt member channel rs
          (loopBody evt member channel st r)
        rw [h, hhp, hp, Punishment.le_def] at hle
        simp [Punishment.severity] at hle
      | PunishBan =>
        have hlt : st.highestPunish < (r.2.Check evt channel).punishment := by
          rw [hp, h0, Punishment.lt_def]; simp [Punishment.severity]
        rw [if_pos ⟨htr, hlt⟩] at hhp
        have hle := ruleLoopFrom_highestPunish_le evt member channel rs
          (loopBody evt member channel st r)
        rw [h, hhp, hp, Punishment.le_def] at hle
        simp [Punishment.severity] at hle
    · rw [if_neg (fun c => htr c.1)] at hhp
      obtain ⟨kr, hf, hd⟩ := ih _ (by rw [hhp, h0]) h
      refine ⟨kr, ?_, hd⟩
      simpa [triggeredRules, List.filter_cons, htr] using hf

/-! The calls of the loop. -/

theorem loopBody_trace (evt : MessageCreate) (member : Member) (channel : Channel)
    (st : LoopState) (kr : RuleKind × Rule) :
    ∃ ev, (loopBody evt member channel st kr).trace = st.trace ++ ev ∧
      Effect.ShouldIgnore kr.1 ∈ ev ∧
      (kr.2.ShouldIgnore evt member = false → Effect.Check kr.1 ∈ ev) ∧
      ∀ e ∈ ev, e.isLoopEffect = true := by
  unfold loopBody
  cases hi : kr.2.ShouldIgnore evt member <;> cases he : (kr.2.Check evt channel).err <;>
    cases hd : (kr.2.Check evt channel).d <;>
    by_cases hp : st.highestPunish < (kr.2.Check evt channel).punishment <;>
    simp [hi, he, hd, hp, Effect.isLoopEffect]

theorem ruleLoopFrom_trace (evt : MessageCreate) (member : Member) (channel : Channel)
    (rs : List (RuleKind × Rule)) (st : LoopState) :
    ∃ ev, (ruleLoopFrom evt member channel st rs).trace = st.trace ++ ev ∧
      (∀ kr ∈ rs, Effect.ShouldIgnore kr.1 ∈ ev) ∧
      (∀ kr ∈ rs, kr.2.ShouldIgnore evt member = false → Effect.Check kr.1 ∈ ev) ∧
      ∀ e ∈ ev, e.isLoopEffect = true := by
  induction rs generalizing st with
  | nil => exact ⟨[], by simp [ruleLoopFrom_nil]⟩
  | cons r rs ih =>
    obtain ⟨ev1, h1, hs1, hc1, hl1⟩ := loopBody_trace evt member channel st r
    obtain ⟨ev2, h2, hs2, hc2, hl2⟩ := ih (loopBody evt member channel st r)
    refine ⟨ev1 ++ ev2, ?_, ?_, ?_, ?_⟩
    · rw [ruleLoopFrom_cons, h2, h1, List.append_assoc]
    · intro kr hkr
      rcases List.mem_cons.1 hkr with rfl | hkr
      · exact List.mem_append_left _ hs1
      · exact List.mem_append_right _ (hs2 kr hkr)
    · intro kr hkr hig
      rcases List.mem_cons.1 hkr with rfl | hkr
      · exact List.mem_append_left _ (hc1 hig)
      · exact List.mem_append_right _ (hc2 kr hkr hig)
    · intro e he
      rcases List.mem_append.1 he with he | he
      · exact hl1 e he
      · exact hl2 e he

theorem ruleLoop_trace (evt : MessageCreate) (member : Member) (channel : Channel)
    (rs : List (RuleKind × Rule)) :
    (∀ kr ∈ rs, Effect.ShouldIgnore kr.1 ∈ (ruleLoop evt member channel rs).trace) ∧
      (∀ kr ∈ rs, kr.2.ShouldIgnore evt member = false →
        Effect.Check kr.1 ∈ (ruleLoop evt member channel rs).trace) ∧
      ∀ e ∈ (ruleLoop evt member channel rs).trace, e.isLoopEffect = true := by
  obtain ⟨ev, h, hs, hc, hl⟩ := ruleLoopFrom_trace evt member channel rs LoopState.init
  have : (ruleLoop evt member channel rs).trace = ev := by
    rw [ruleLoop, h]; simp [LoopState.init]
  rw [this]
  exact ⟨hs, hc, hl⟩

/-! The configuration lookup. -/

theorem CachedGetConfig_cache (w : World) (cache : Cache) (gID : String) :
    (CachedGetConfig w cache gID).2.1 = cache := by
  unfold CachedGetConfig
  cases cache.Get (w.KeyConfig gID) <;> simp
  cases w.GetConfig gID <;> simp

theorem CachedGetConfig_trace (w : World) (cache : Cache) (gID : String) :
    ∀ e ∈ (CachedGetConfig w cache gID).2.2, e.isConfigCall = true := by
  unfold CachedGetConfig
  cases cache.Get (w.KeyConfig gID) <;> simp [Effect.isConfigCall]
  cases w.GetConfig gID <;> simp [Effect.isConfigCall]

/-! The handler past its early returns. -/

theorem HandleMessageCreate_of_reaches (w : World) (cache : Cache) (evt : MessageCreate)
    (channel : Channel) (guild : Guild) (config : Config) (member : Member)
    (h : Reaches w cache evt channel guild config member) :
    HandleMessageCreate w cache evt =
      (CachedGetConfig w cache guild.ID).2.2 ++
        Effect.RLock :: ((ruleLoop evt member channel (rules config)).trace ++
          Effect.RUnlock :: dispatch w evt channel guild member
            (ruleLoop evt member channel (rules config))) := by
  obtain ⟨h1, h2, h3, h4, h5, h6⟩ := h
  unfold HandleMessageCreate
  rw [h1]
  simp only [h2, h3]
  rcases hc : CachedGetConfig w cache guild.ID with ⟨res, c, tr⟩
  rw [hc] at h4
  simp only at h4
  subst h4
  simp [h5, h6, moderate]

theorem sampleWorld_reaches (config : Config) (hen : config.Enabled = true)
    (deleteErr dmErr actionErr : Option String) :
    Reaches (sampleWorld config deleteErr dmErr actionErr) [] sampleEvt sampleChannel
      sampleGuild config sampleMember :=
  { hChannel := rfl, hPublic := rfl, hGuild := rfl, hConfig := rfl, hEnabled := hen,
    hMember := rfl }

/-! Which part of the trace holds which calls. -/

theorem any_eq_false_of_class {l : List Effect} {f g : Effect → Bool}
    (hl : ∀ e ∈ l, g e = true) (hfg : ∀ e, g e = true → f e = false) :
    l.any f = false := by
  rw [List.any_eq_false]
  intro e he
  simp [hfg e (hl e he)]

theorem filter_eq_nil_of_class {l : List Effect} {f g : Effect → Bool}
    (hl : ∀ e ∈ l, g e = true) (hfg : ∀ e, g e = true → f e = false) :
    l.filter f = [] := by
  rw [List.filter_eq_nil_iff]
  intro e he
  simp [hfg e (hl e he)]

theorem isConfigCall_not_isDispatch (e : Effect) (h : e.isConfigCall = true) :
    e.isDispatch = false := by
  cases e <;> simp [Effect.isConfigCall, Effect.isDispatch] at h ⊢

theorem isLoopEffect_not_isDispatch (e : Effect) (h : e.isLoopEffect = true) :
    e.isDispatch = false := by
  cases e <;> simp [Effect.isLoopEffect, Effect.isDispatch] at h ⊢

theorem HandleMessageCreate_any (w : World) (cache : Cache) (evt : MessageCreate)
    (channel : Channel) (guild : Guild) (config : Config) (member : Member)
    (h : Reaches w cache evt channel guild config member) (f : Effect → Bool)
    (hf : ∀ e, e.isDispatch = false → f e = false) :
    (HandleMessageCreate w cache evt).any f =
      (dispatch w evt channel guild member (ruleLoop evt member channel (rules config))).any f := by
  rw [HandleMessageCreate_of_reaches w cache evt channel guild config member h]
  have h1 : (CachedGetConfig w cache guild.ID).2.2.any f = false :=
    any_eq_false_of_class (CachedGetConfig_trace w cache guild.ID)
      (fun e he => hf e (isConfigCall_not_isDispatch e he))
  have h2 : (ruleLoop evt member channel (rules config)).trace.any f = false :=
    any_eq_false_of_class (ruleLoop_trace evt member channel (rules config)).2.2
      (fun e he => hf e (isLoopEffect_not_isDispatch e he))
  have h3 : f Effect.RLock = false := hf _ rfl
  have h4 : f Effect.RUnlock = false := hf _ rfl
  simp [List.any_append, List.any_cons, h1, h2, h3, h4]

theorem HandleMessageCreate_filter (w : World) (cache : Cache) (evt : MessageCreate)
    (channel : Channel) (guild : Guild) (config : Config) (member : Member)
    (h : Reaches w cache evt channel guild config member) (f : Effect → Bool)
    (hf : ∀ e, e.isDispatch = false → f e = false) :
    (HandleMessageCreate w cache evt).filter f =
      (dispatch w evt channel guild member
        (ruleLoop evt member channel (rules config))).filter f := by
  rw [HandleMessageCreate_of_reaches w cache evt channel guild config member h]
  have h1 : (CachedGetConfig w cache guild.ID).2.2.filter f = [] :=
    filter_eq_nil_of_class (CachedGetConfig_trace w cache guild.ID)
      (fun e he => hf e (isConfigCall_not_isDispatch e he))
  have h2 : (ruleLoop evt member channel (rules config)).trace.filter f = [] :=
    filter_eq_nil_of_class (ruleLoop_trace evt member channel (rules config)).2.2
      (fun e he => hf e (isLoopEffect_not_isDispatch e he))
  have h3 : f Effect.RLock = false := hf _ rfl
  have h4 : f Effect.RUnlock = false := hf _ rfl
  simp [List.filter_append, List.filter_cons, h1, h2, h3, h4]

theorem ruleLoop_del (evt : MessageCreate) (member : Member) (channel : Channel)
    (rs : List (RuleKind × Rule)) :
    (ruleLoop evt member channel rs).del = rs.any (asksDeletion evt member channel) := by
  rw [ruleLoop, ruleLoopFrom_del]
  simp [LoopState.init]

theorem triggered_asksDeletion (evt : MessageCreate) (member : Member) (channel : Channel)
    (kr : RuleKind × Rule) (h : triggered evt member channel kr = true) :
    asksDeletion evt member channel kr = true := by
  simp only [triggered, asksDeletion, Bool.and_eq_true] at h ⊢
  exact ⟨h.1, h.2.2⟩

theorem dispatchedPunishment_dispatch (w : World) (evt : MessageCreate) (channel : Channel)
    (guild : Guild) (member : Member) (st : LoopState) :
    dispatchedPunishment (dispatch w evt channel guild member st) =
      if st.del = true then some st.highestPunish else none := by
  unfold dispatch punish logPunishErr dispatchedPunishment
  cases st.del
  · simp
  · cases st.highestPunish
    · cases w.SendDM member.User.ID (noticeNone guild st.punishMsg) <;>
        simp [Effect.isBan, Effect.isKick, Effect.isMute, Effect.isNotice]
    · cases w.MuteUnmuteUser true channel.GuildID channel.ID "Automod" st.punishMsg member
        st.muteDuration <;>
        simp [Effect.isBan, Effect.isKick, Effect.isMute, Effect.isNotice]
    · cases w.KickUser channel.GuildID channel.ID "Automod" st.punishMsg member.User <;>
        simp [Effect.isBan, Effect.isKick, Effect.isMute, Effect.isNotice]
    · cases w.BanUser channel.GuildID channel.ID "Automod" st.punishMsg member.User <;>
        simp [Effect.isBan, Effect.isKick, Effect.isMute, Effect.isNotice]

theorem dispatchedPunishment_handler (w : World) (cache : Cache) (evt : MessageCreate)
    (channel : Channel) (guild : Guild) (config : Config) (member : Member)
    (h : Reaches w cache evt channel guild config member) :
    dispatchedPunishment (HandleMessageCreate w cache evt) =
      if (rules config).any (asksDeletion evt member channel) = true
      then some (ruleLoop evt member channel (rules config)).highestPunish else none := by
  rw [← ruleLoop_del, ← dispatchedPunishment_dispatch w evt channel guild member]
  unfold dispatchedPunishment
  rw [HandleMessageCreate_any w cache evt channel guild config member h Effect.isBan
      (fun e he => by cases e <;> simp [Effect.isDispatch, Effect.isBan] at he ⊢),
    HandleMessageCreate_any w cache evt channel guild config member h Effect.isKick
      (fun e he => by cases e <;> simp [Effect.isDispatch, Effect.isKick] at he ⊢),
    HandleMessageCreate_any w cache evt channel guild config member h Effect.isMute
      (fun e he => by cases e <;> simp [Effect.isDispatch, Effect.isMute] at he ⊢),
    HandleMessageCreate_any w cache evt channel guild config member h Effect.isNotice
      (fun e he => by cases e <;> simp [Effect.isDispatch, Effect.isNotice] at he ⊢)]

theorem ruleLoop_highestPunish_max (evt : MessageCreate) (member : Member) (channel : Channel)
    (rs : List (RuleKind × Rule)) :
    (∀ kr ∈ triggeredRules evt member channel rs,
        (kr.2.Check evt channel).punishment ≤ (ruleLoop evt member channel rs).highestPunish) ∧
      (triggeredRules evt member channel rs = [] →
        (ruleLoop evt member channel rs).highestPunish = PunishNone) ∧
      (triggeredRules evt member channel rs ≠ [] →
        ∃ kr ∈ triggeredRules evt member channel rs,
          (kr.2.Check evt channel).punishment =
            (ruleLoop evt member channel rs).highestPunish) := by
  have hub := ruleLoopFrom_highestPunish_ub evt member channel rs LoopState.init
  have hat := ruleLoopFrom_highestPunish_attained evt member channel rs LoopState.init
  refine ⟨hub, ?_, ?_⟩
  · intro hnil
    rcases hat with h | ⟨kr, hkr, _⟩
    · exact h
    · rw [hnil] at hkr
      cases hkr
  · intro hne
    rcases hat with h | h
    · obtain ⟨kr, hkr⟩ := List.exists_mem_of_ne_nil _ hne
      refine ⟨kr, hkr, ?_⟩
      have hle := hub kr hkr
      apply Punishment.severity_inj
      have h0 : (ruleLoop evt member channel rs).highestPunish = PunishNone := h
      rw [ruleLoop, Punishment.le_def] at *
      rw [h0] at hle ⊢
      simp [Punishment.severity] at hle ⊢
      exact hle
    · exact h

/-! The claims. -/

/-- C1: in a run that gets past the early returns, the punishment level the
handler dispatches is the running maximum of the loop, which is at least the
punishment of every triggered rule, is the punishment of one of them when a rule
triggered, and is None when none did; it is dispatched exactly when some rule
that was not ignored returned its deletion flag set. -/
theorem dispatched_punishment_is_maximum (w : World) (cache : Cache) (evt : MessageCreate)
    (channel : Channel) (guild : Guild) (config : Config) (member : Member)
    (h : Reaches w cache evt channel guild config member) :
    ∃ p : Punishment,
      p = (ruleLoop evt member channel (rules config)).highestPunish ∧
      (∀ kr ∈ triggeredRules evt member channel (rules config),
        (kr.2.Check evt channel).punishment ≤ p) ∧
      (triggeredRules evt member channel (rules config) = [] → p = PunishNone) ∧
      (triggeredRules evt member channel (rules config) ≠ [] →
        ∃ kr ∈ triggeredRules evt member channel (rules config),
          (kr.2.Check evt channel).punishment = p) ∧
      dispatchedPunishment (HandleMessageCreate w cache evt) =
        if (rules config).any (asksDeletion evt member channel) = true
        then some p else none := by
  obtain ⟨h1, h2, h3⟩ := ruleLoop_highestPunish_max evt member channel (rules config)
  exact ⟨_, rfl, h1, h2, h3,
    dispatchedPunishment_handler w cache evt channel guild config member h⟩

/-- Witness of C1: the word rule mutes, the site rule kicks, the handler kicks. -/
theorem dispatched_punishment_is_maximum_witness :
    Reaches (sampleWorld sampleConfig none none none) [] sampleEvt sampleChannel
        sampleGuild sampleConfig sampleMember ∧
      dispatchedPunishment
        (HandleMessageCreate (sampleWorld sampleConfig none none none) [] sampleEvt) =
          some PunishKick := by
  refine ⟨sampleWorld_reaches sampleConfig rfl none none none, ?_⟩
  obtain ⟨p, hp, _, _, _, hd⟩ := dispatched_punishment_is_maximum
    (sampleWorld sampleConfig none none none) [] sampleEvt sampleChannel sampleGuild
    sampleConfig sampleMember (sampleWorld_reaches sampleConfig rfl none none none)
  rw [hd, hp]
  decide

theorem isConfigCall_class (e : Effect) (h : e.isConfigCall = true) :
    e.isDispatch = false ∧ e.isLock = false ∧ e.isRuleCall = false := by
  cases e <;> simp [Effect.isConfigCall, Effect.isDispatch, Effect.isLock, Effect.isRuleCall] at h ⊢

theorem HandleMessageCreate_early (w : World) (cache : Cache) (evt : MessageCreate) :
    (∃ channel guild config member, Reaches w cache evt channel guild config member) ∨
      ∀ e ∈ HandleMessageCreate w cache evt,
        e.isDispatch = false ∧ e.isLock = false ∧ e.isRuleCall = false := by
  cases h1 : w.LogGetChannel evt.ChannelID with
  | none => right; simp [HandleMessageCreate, h1]
  | some channel =>
    cases h2 : channel.IsPrivate with
    | true => right; simp [HandleMessageCreate, h1, h2]
    | false =>
      cases h3 : w.LogGetGuild channel.GuildID with
      | none => right; simp [HandleMessageCreate, h1, h2, h3]
      | some guild =>
        have htr := CachedGetConfig_trace w cache guild.ID
        rcases hc : CachedGetConfig w cache guild.ID with ⟨res, c, tr⟩
        rw [hc] at htr
        simp only at htr
        cases res with
        | error err =>
          right
          intro e he
          simp [HandleMessageCreate, h1, h2, h3, hc] at he
          rcases he with he | rfl
          · exact isConfigCall_class e (htr e he)
          · simp [Effect.isDispatch, Effect.isLock, Effect.isRuleCall]
        | ok config =>
          cases h5 : config.Enabled with
          | false =>
            right
            intro e he
            simp [HandleMessageCreate, h1, h2, h3, hc, h5] at he
            rcases he with he | rfl
            · exact isConfigCall_class e (htr e he)
            · simp [Effect.isDispatch, Effect.isLock, Effect.isRuleCall]
          | true =>
            cases h6 : w.StateMember guild.ID evt.Author.ID with
            | error err =>
              right
              intro e he
              simp [HandleMessageCreate, h1, h2, h3, hc, h5, h6] at he
              rcases he with he | rfl
              · exact isConfigCall_class e (htr e he)
              · simp [Effect.isDispatch, Effect.isLock, Effect.isRuleCall]
            | ok member =>
              left
              exact ⟨channel, guild, config, member,
                { hChannel := h1, hPublic := h2, hGuild := h3, hConfig := by rw [hc],
                  hEnabled := h5, hMember := h6 }⟩

theorem dispatch_filter_isDispatch (w : World) (evt : MessageCreate) (channel : Channel)
    (guild : Guild) (member : Member) (st : LoopState) :
    (dispatch w evt channel guild member st).filter Effect.isDispatch =
      dispatchCalls evt channel guild member st := by
  unfold dispatch punish logPunishErr dispatchCalls
  cases st.del
  · simp
  · cases st.highestPunish
    · cases w.SendDM member.User.ID (noticeNone guild st.punishMsg) <;>
        simp [Effect.isDispatch, List.filter_cons]
    · cases w.MuteUnmuteUser true channel.GuildID channel.ID "Automod" st.punishMsg member
        st.muteDuration <;>
        simp [Effect.isDispatch, List.filter_cons]
    · cases w.KickUser channel.GuildID channel.ID "Automod" st.punishMsg member.User <;>
        simp [Effect.isDispatch, List.filter_cons]
    · cases w.BanUser channel.GuildID channel.ID "Automod" st.punishMsg member.User <;>
        simp [Effect.isDispatch, List.filter_cons]

theorem HandleMessageCreate_calls (w : World) (cache : Cache) (evt : MessageCreate)
    (channel : Channel) (guild : Guild) (config : Config) (member : Member)
    (h : Reaches w cache evt channel guild config member) :
    (HandleMessageCreate w cache evt).filter Effect.isDispatch =
      dispatchCalls evt channel guild member (ruleLoop evt member channel (rules config)) := by
  rw [HandleMessageCreate_filter w cache evt channel guild config member h Effect.isDispatch
    (fun e he => he), dispatch_filter_isDispatch]

theorem dispatch_any_isDelete (w : World) (evt : MessageCreate) (channel : Channel)
    (guild : Guild) (member : Member) (st : LoopState) :
    (dispatch w evt channel guild member st).any Effect.isDelete = st.del := by
  unfold dispatch
  cases st.del <;> simp [Effect.isDelete]

theorem dispatch_of_not_del (w : World) (evt : MessageCreate) (channel : Channel)
    (guild : Guild) (member : Member) (st : LoopState) (h : st.del = false) :
    dispatch w evt channel guild member st = [] := by
  simp [dispatch, h]

theorem asksDeletion_any_iff (evt : MessageCreate) (member : Member) (channel : Channel)
    (rs : List (RuleKind × Rule)) :
    rs.any (asksDeletion evt member channel) = true ↔
      ∃ kr ∈ rs, kr.2.ShouldIgnore evt member = false ∧ (kr.2.Check evt channel).d = true := by
  simp [List.any_eq_true, asksDeletion]

/-- C2: in a run that gets past the early returns, the deletion request is in
the trace exactly when some rule that was not ignored returned its deletion flag
set (its punishment level plays no part), and when no such rule exists the trace
has no deletion, no private notice and no mute, kick or ban call. -/
theorem deletion_iff_flag (w : World) (cache : Cache) (evt : MessageCreate)
    (channel : Channel) (guild : Guild) (config : Config) (member : Member)
    (h : Reaches w cache evt channel guild config member) :
    ((∃ e ∈ HandleMessageCreate w cache evt, e.isDelete = true) ↔
        ∃ kr ∈ rules config,
          kr.2.ShouldIgnore evt member = false ∧ (kr.2.Check evt channel).d = true) ∧
      ((∀ kr ∈ rules config,
          kr.2.ShouldIgnore evt member = false → (kr.2.Check evt channel).d = false) →
        ∀ e ∈ HandleMessageCreate w cache evt, e.isDispatch = false) := by
  constructor
  · rw [← asksDeletion_any_iff, ← ruleLoop_del,
      ← dispatch_any_isDelete w evt channel guild member,
      ← HandleMessageCreate_any w cache evt channel guild config member h Effect.isDelete
        (fun e he => by cases e <;> simp [Effect.isDispatch, Effect.isDelete] at he ⊢),
      List.any_eq_true]
  · intro hno e he
    have hdel : (ruleLoop evt member channel (rules config)).del = false := by
      rw [ruleLoop_del, List.any_eq_false]
      intro kr hkr
      simp only [asksDeletion, Bool.and_eq_true, Bool.not_eq_true', not_and,
        Bool.not_eq_true]
      exact hno kr hkr
    have hf := HandleMessageCreate_filter w cache evt channel guild config member h
      Effect.isDispatch (fun e he => he)
    rw [dispatch_of_not_del _ _ _ _ _ _ hdel, List.filter_nil, List.filter_eq_nil_iff] at hf
    simpa using hf e he

/-- Witness of C2: with the word and site rules setting their flag, the
deletion request is issued. -/
theorem deletion_iff_flag_witness :
    Reaches (sampleWorld sampleConfig none none none) [] sampleEvt sampleChannel
        sampleGuild sampleConfig sampleMember ∧
      ((∃ e ∈ HandleMessageCreate (sampleWorld sampleConfig none none none) [] sampleEvt,
          e.isDelete = true) ↔
        ∃ kr ∈ rules sampleConfig,
          kr.2.ShouldIgnore sampleEvt sampleMember = false ∧
            (kr.2.Check sampleEvt sampleChannel).d = true) :=
  ⟨sampleWorld_reaches sampleConfig rfl none none none,
    (deletion_iff_flag (sampleWorld sampleConfig none none none) [] sampleEvt sampleChannel
      sampleGuild sampleConfig sampleMember
      (sampleWorld_reaches sampleConfig rfl none none none)).1⟩

/-- C7: the combined message the loop builds is the concatenation, over the
triggered rules of the list spam, invite, mention, links, words, sites in that
order, of the rule's violation message followed by a newline. -/
theorem combined_message_is_join (evt : MessageCreate) (member : Member) (channel : Channel)
    (config : Config) :
    (rules config).map Prod.fst =
        [RuleKind.spam, RuleKind.invite, RuleKind.mention, RuleKind.links, RuleKind.words,
          RuleKind.sites] ∧
      (ruleLoop evt member channel (rules config)).punishMsg =
        String.join
          (((rules config).filter (fun kr =>
              !kr.2.ShouldIgnore evt member &&
                ((kr.2.Check evt channel).err.isNone && (kr.2.Check evt channel).d))).map
            (fun kr => (kr.2.Check evt channel).msg ++ "\n")) := by
  refine ⟨rfl, ?_⟩
  rw [ruleLoop, ruleLoopFrom_punishMsg]
  rfl

theorem filter_isPunishAction_eq (l : List Effect) :
    l.filter Effect.isPunishAction = (l.filter Effect.isDispatch).filter Effect.isPunishAction := by
  rw [List.filter_filter]
  congr 1
  funext e
  cases e <;> simp [Effect.isPunishAction, Effect.isDispatch]

theorem dispatchCalls_punishActions_length (evt : MessageCreate) (channel : Channel)
    (guild : Guild) (member : Member) (st : LoopState) :
    ((dispatchCalls evt channel guild member st).filter Effect.isPunishAction).length ≤ 1 := by
  unfold dispatchCalls
  cases st.del
  · simp
  · cases st.highestPunish <;> simp [Effect.isPunishAction, List.filter_cons]

theorem HandleMessageCreate_punishActions_le (w : World) (cache : Cache)
    (evt : MessageCreate) :
    (HandleMessageCreate w cache evt).countP Effect.isPunishAction ≤ 1 := by
  rw [List.countP_eq_length_filter]
  rcases HandleMessageCreate_early w cache evt with ⟨channel, guild, config, member, h⟩ | h
  · rw [filter_isPunishAction_eq,
      HandleMessageCreate_calls w cache evt channel guild config member h]
    exact dispatchCalls_punishActions_length _ _ _ _ _
  · have : (HandleMessageCreate w cache evt).filter Effect.isPunishAction = [] := by
      rw [List.filter_eq_nil_iff]
      intro e he
      have hd := (h e he).1
      cases e <;> simp [Effect.isPunishAction, Effect.isDispatch] at hd ⊢
    rw [this]
    simp

/-- C5: every run issues at most one of the mute, kick and ban actions; and in a
run that gets past the early returns with the deletion decision true, the
deletion, notice and punishment calls of the trace are, in order: the deletion
request, then for None one private notice; for Mute one private notice and one
mute call carrying "Automod", the combined message and the mute duration; for
Kick one kick call; for Ban one ban call, both carrying "Automod" and the
combined message. -/
theorem dispatch_is_one_level (w : World) (cache : Cache) (evt : MessageCreate) :
    (HandleMessageCreate w cache evt).countP Effect.isPunishAction ≤ 1 ∧
      ∀ (channel : Channel) (guild : Guild) (config : Config) (member : Member),
        Reaches w cache evt channel guild config member →
        (ruleLoop evt member channel (rules config)).del = true →
        ((ruleLoop evt member channel (rules config)).highestPunish = PunishNone →
          (HandleMessageCreate w cache evt).filter Effect.isDispatch =
            [Effect.ChannelMessageDelete evt.ChannelID evt.ID,
              Effect.SendDM member.User.ID
                (noticeNone guild (ruleLoop evt member channel (rules config)).punishMsg)]) ∧
        ((ruleLoop evt member channel (rules config)).highestPunish = PunishMute →
          (HandleMessageCreate w cache evt).filter Effect.isDispatch =
            [Effect.ChannelMessageDelete evt.ChannelID evt.ID,
              Effect.SendDM member.User.ID
                (noticeMute guild (ruleLoop evt member channel (rules config)).punishMsg),
              Effect.MuteUnmuteUser true channel.GuildID channel.ID "Automod"
                (ruleLoop evt member channel (rules config)).punishMsg member
                (ruleLoop evt member channel (rules config)).muteDuration]) ∧
        ((ruleLoop evt member channel (rules config)).highestPunish = PunishKick →
          (HandleMessageCreate w cache evt).filter Effect.isDispatch =
            [Effect.ChannelMessageDelete evt.ChannelID evt.ID,
              Effect.KickUser channel.GuildID channel.ID "Automod"
                (ruleLoop evt member channel (rules config)).punishMsg member.User]) ∧
        ((ruleLoop evt member channel (rules config)).highestPunish = PunishBan →
          (HandleMessageCreate w cache evt).filter Effect.isDispatch =
            [Effect.ChannelMessageDelete evt.ChannelID evt.ID,
              Effect.BanUser channel.GuildID channel.ID "Automod"
                (ruleLoop evt member channel (rules config)).punishMsg member.User]) := by
  refine ⟨HandleMessageCreate_punishActions_le w cache evt, ?_⟩
  intro channel guild config member h hdel
  rw [HandleMessageCreate_calls w cache evt channel guild config member h]
  unfold dispatchCalls
  refine ⟨?_, ?_, ?_, ?_⟩ <;> intro hp <;> simp [hdel, hp]

/-- Witness of C5: the word rule mutes, the site rule kicks; the handler deletes
the message and kicks once. -/
theorem dispatch_is_one_level_witness :
    Reaches (sampleWorld sampleConfig none none none) [] sampleEvt sampleChannel
        sampleGuild sampleConfig sampleMember ∧
      (ruleLoop sampleEvt sampleMember sampleChannel (rules sampleConfig)).del = true ∧
      (ruleLoop sampleEvt sampleMember sampleChannel (rules sampleConfig)).highestPunish =
        PunishKick ∧
      (HandleMessageCreate (sampleWorld sampleConfig none none none) [] sampleEvt).filter
          Effect.isDispatch =
        [Effect.ChannelMessageDelete sampleEvt.ChannelID sampleEvt.ID,
          Effect.KickUser sampleChannel.GuildID sampleChannel.ID "Automod"
            (ruleLoop sampleEvt sampleMember sampleChannel (rules sampleConfig)).punishMsg
            sampleMember.User] :=
  ⟨sampleWorld_reaches sampleConfig rfl none none none, by decide, by decide,
    ((dispatch_is_one_level (sampleWorld sampleConfig none none none) [] sampleEvt).2
      sampleChannel sampleGuild sampleConfig sampleMember
      (sampleWorld_reaches sampleConfig rfl none none none) (by decide)).2.2.1 (by decide)⟩

theorem ruleLoop_mute_first (evt : MessageCreate) (member : Member) (channel : Channel)
    (rs : List (RuleKind × Rule))
    (hm : (ruleLoop evt member channel rs).highestPunish = PunishMute) :
    ∃ kr, (triggeredRules evt member channel rs).find?
        (fun r => decide ((r.2.Check evt channel).punishment = PunishMute)) = some kr ∧
      (ruleLoop evt member channel rs).muteDuration = kr.2.GetMuteDuration ∧
      (ruleLoop evt member channel rs).del = true := by
  obtain ⟨kr, hf, hd⟩ := ruleLoopFrom_muteDuration_first evt member channel rs
    LoopState.init rfl hm
  refine ⟨kr, hf, hd, ?_⟩
  have hmem := List.mem_of_find?_eq_some hf
  simp only [triggeredRules, List.mem_filter] at hmem
  rw [ruleLoop_del, List.any_eq_true]
  exact ⟨kr, hmem.1, triggered_asksDeletion evt member channel kr hmem.2⟩

/-- C8: in a run that gets past the early returns with final punishment Mute,
the first triggered rule in evaluation order whose punishment is Mute exists,
and the one mute call of the trace carries the `GetMuteDuration` value of that
rule. -/
theorem mute_duration_of_first_mute_rule (w : World) (cache : Cache) (evt : MessageCreate)
    (channel : Channel) (guild : Guild) (config : Config) (member : Member)
    (h : Reaches w cache evt channel guild config member)
    (hm : (ruleLoop evt member channel (rules config)).highestPunish = PunishMute) :
    ∃ kr, ((rules config).filter (triggered evt member channel)).find?
        (fun r => decide ((r.2.Check evt channel).punishment = PunishMute)) = some kr ∧
      (HandleMessageCreate w cache evt).filter Effect.isPunishAction =
        [Effect.MuteUnmuteUser true channel.GuildID channel.ID "Automod"
          (ruleLoop evt member channel (rules config)).punishMsg member
          kr.2.GetMuteDuration] := by
  obtain ⟨kr, hf, hd, hdel⟩ := ruleLoop_mute_first evt member channel (rules config) hm
  refine ⟨kr, hf, ?_⟩
  rw [filter_isPunishAction_eq,
    HandleMessageCreate_calls w cache evt channel guild config member h]
  unfold dispatchCalls
  simp [hdel, hm, hd, Effect.isPunishAction, List.filter_cons]

/-- Witness of C8: the mention rule (5 minutes) and the word rule (10 minutes)
both mute; the mute call carries the 5 minutes of the mention rule. -/
theorem mute_duration_of_first_mute_rule_witness :
    Reaches (sampleWorld sampleMuteConfig none none none) [] sampleEvt sampleChannel
        sampleGuild sampleMuteConfig sampleMember ∧
      (ruleLoop sampleEvt sampleMember sampleChannel (rules sampleMuteConfig)).highestPunish =
        PunishMute ∧
      ∃ kr, ((rules sampleMuteConfig).filter
          (triggered sampleEvt sampleMember sampleChannel)).find?
          (fun r => decide ((r.2.Check sampleEvt sampleChannel).punishment = PunishMute)) =
            some kr ∧
        (HandleMessageCreate (sampleWorld sampleMuteConfig none none none) [] sampleEvt).filter
            Effect.isPunishAction =
          [Effect.MuteUnmuteUser true sampleChannel.GuildID sampleChannel.ID "Automod"
            (ruleLoop sampleEvt sampleMember sampleChannel (rules sampleMuteConfig)).punishMsg
            sampleMember kr.2.GetMuteDuration] :=
  ⟨sampleWorld_reaches sampleMuteConfig rfl none none none, by decide,
    mute_duration_of_first_mute_rule (sampleWorld sampleMuteConfig none none none) []
      sampleEvt sampleChannel sampleGuild sampleMuteConfig sampleMember
      (sampleWorld_reaches sampleMuteConfig rfl none none none) (by decide)⟩

theorem dispatch_class (w : World) (evt : MessageCreate) (channel : Channel)
    (guild : Guild) (member : Member) (st : LoopState) :
    ∀ e ∈ dispatch w evt channel guild member st,
      e.isLock = false ∧ e.isRuleCall = false ∧ (e.isDispatch = true ∨ e.isLog = true) := by
  unfold dispatch punish logPunishErr
  cases st.del
  · simp
  · cases st.highestPunish
    · cases w.SendDM member.User.ID (noticeNone guild st.punishMsg) <;>
        simp [Effect.isLock, Effect.isRuleCall, Effect.isDispatch, Effect.isLog]
    · cases w.MuteUnmuteUser true channel.GuildID channel.ID "Automod" st.punishMsg member
        st.muteDuration <;>
        simp [Effect.isLock, Effect.isRuleCall, Effect.isDispatch, Effect.isLog]
    · cases w.KickUser channel.GuildID channel.ID "Automod" st.punishMsg member.User <;>
        simp [Effect.isLock, Effect.isRuleCall, Effect.isDispatch, Effect.isLog]
    · cases w.BanUser channel.GuildID channel.ID "Automod" st.punishMsg member.User <;>
        simp [Effect.isLock, Effect.isRuleCall, Effect.isDispatch, Effect.isLog]

theorem isLoopEffect_class (e : Effect) (h : e.isLoopEffect = true) :
    e.isLock = false ∧ e.isDispatch = false := by
  cases e <;> simp [Effect.isLoopEffect, Effect.isLock, Effect.isDispatch] at h ⊢

theorem count_eq_zero_of_not_isLock {l : List Effect} (hl : ∀ e ∈ l, e.isLock = false) :
    l.count Effect.RLock = 0 ∧ l.count Effect.RUnlock = 0 := by
  constructor
  · rw [List.count_eq_zero]
    intro hmem
    have := hl _ hmem
    simp [Effect.isLock] at this
  · rw [List.count_eq_zero]
    intro hmem
    have := hl _ hmem
    simp [Effect.isLock] at this

/-- C10: every run acquires the read lock as often as it releases it, and at
most once; and a run that gets past the early returns is the calls of the
configuration lookup, then one `RLock`, then the calls of the whole rule loop
(a `ShouldIgnore` call for each of the six rules, the `Check` and
`GetMuteDuration` calls, and the log entry of a failed `Check`), then one
`RUnlock`, then the deletion, notice and punishment calls with their log entry;
no lock call is in the loop part or after the release, and no deletion, notice
or punishment call is before the release. -/
theorem lock_held_for_loop_only (w : World) (cache : Cache) (evt : MessageCreate) :
    (HandleMessageCreate w cache evt).count Effect.RLock =
        (HandleMessageCreate w cache evt).count Effect.RUnlock ∧
      (HandleMessageCreate w cache evt).count Effect.RLock ≤ 1 ∧
      ∀ (channel : Channel) (guild : Guild) (config : Config) (member : Member),
        Reaches w cache evt channel guild config member →
        ∃ pre post,
          HandleMessageCreate w cache evt =
            pre ++ Effect.RLock :: ((ruleLoop evt member channel (rules config)).trace ++
              Effect.RUnlock :: post) ∧
          (∀ e ∈ pre, e.isLock = false ∧ e.isRuleCall = false ∧ e.isDispatch = false) ∧
          (∀ kr ∈ rules config,
            Effect.ShouldIgnore kr.1 ∈ (ruleLoop evt member channel (rules config)).trace) ∧
          (∀ e ∈ (ruleLoop evt member channel (rules config)).trace,
            e.isLoopEffect = true ∧ e.isLock = false ∧ e.isDispatch = false) ∧
          (∀ e ∈ post,
            e.isLock = false ∧ e.isRuleCall = false ∧
              (e.isDispatch = true ∨ e.isLog = true)) ∧
          (HandleMessageCreate w cache evt).count Effect.RLock = 1 ∧
          (HandleMessageCreate w cache evt).count Effect.RUnlock = 1 := by
  have hreach : ∀ (channel : Channel) (guild : Guild) (config : Config) (member : Member),
      Reaches w cache evt channel guild config member →
      ∃ pre post,
        HandleMessageCreate w cache evt =
          pre ++ Effect.RLock :: ((ruleLoop evt member channel (rules config)).trace ++
            Effect.RUnlock :: post) ∧
        (∀ e ∈ pre, e.isLock = false ∧ e.isRuleCall = false ∧ e.isDispatch = false) ∧
        (∀ kr ∈ rules config,
          Effect.ShouldIgnore kr.1 ∈ (ruleLoop evt member channel (rules config)).trace) ∧
        (∀ e ∈ (ruleLoop evt member channel (rules config)).trace,
          e.isLoopEffect = true ∧ e.isLock = false ∧ e.isDispatch = false) ∧
        (∀ e ∈ post,
          e.isLock = false ∧ e.isRuleCall = false ∧
            (e.isDispatch = true ∨ e.isLog = true)) ∧
        (HandleMessageCreate w cache evt).count Effect.RLock = 1 ∧
        (HandleMessageCreate w cache evt).count Effect.RUnlock = 1 := by
    intro channel guild config member h
    have heq := HandleMessageCreate_of_reaches w cache evt channel guild config member h
    have hpre : ∀ e ∈ (CachedGetConfig w cache guild.ID).2.2,
        e.isLock = false ∧ e.isRuleCall = false ∧ e.isDispatch = false := by
      intro e he
      have := isConfigCall_class e (CachedGetConfig_trace w cache guild.ID e he)
      exact ⟨this.2.1, this.2.2, this.1⟩
    have hloop := ruleLoop_trace evt member channel (rules config)
    have hloop2 : ∀ e ∈ (ruleLoop evt member channel (rules config)).trace,
        e.isLoopEffect = true ∧ e.isLock = false ∧ e.isDispatch = false := by
      intro e he
      have h1 := hloop.2.2 e he
      exact ⟨h1, isLoopEffect_class e h1⟩
    have hpost := dispatch_class w evt channel guild member
      (ruleLoop evt member channel (rules config))
    have c1 := count_eq_zero_of_not_isLock (fun e he => (hpre e he).1)
    have c2 := count_eq_zero_of_not_isLock (fun e he => (hloop2 e he).2.1)
    have c3 := count_eq_zero_of_not_isLock (fun e he => (hpost e he).1)
    refine ⟨_, _, heq, hpre, hloop.1, hloop2, hpost, ?_, ?_⟩
    · rw [heq]
      simp [List.count_append, List.count_cons, c1.1, c2.1, c3.1]
    · rw [heq]
      simp [List.count_append, List.count_cons, c1.2, c2.2, c3.2]
  refine ⟨?_, ?_, hreach⟩
  · rcases HandleMessageCreate_early w cache evt with ⟨channel, guild, config, member, h⟩ | h
    · obtain ⟨_, _, _, _, _, _, _, h1, h2⟩ := hreach channel guild config member h
      rw [h1, h2]
    · have := count_eq_zero_of_not_isLock (fun e he => (h e he).2.1)
      rw [this.1, this.2]
  · rcases HandleMessageCreate_early w cache evt with ⟨channel, guild, config, member, h⟩ | h
    · obtain ⟨_, _, _, _, _, _, _, h1, _⟩ := hreach channel guild config member h
      rw [h1]
    · have := count_eq_zero_of_not_isLock (fun e he => (h e he).2.1)
      rw [this.1]
      exact Nat.zero_le 1

/-- Witness of C10: the sample run holds the lock once, around its loop. -/
theorem lock_held_for_loop_only_witness :
    Reaches (sampleWorld sampleConfig none none none) [] sampleEvt sampleChannel
        sampleGuild sampleConfig sampleMember ∧
      ∃ pre post,
        HandleMessageCreate (sampleWorld sampleConfig none none none) [] sampleEvt =
          pre ++ Effect.RLock ::
            ((ruleLoop sampleEvt sampleMember sampleChannel (rules sampleConfig)).trace ++
              Effect.RUnlock :: post) ∧
        (∀ e ∈ pre, e.isLock = false ∧ e.isRuleCall = false ∧ e.isDispatch = false) ∧
        (∀ kr ∈ rules sampleConfig,
          Effect.ShouldIgnore kr.1 ∈
            (ruleLoop sampleEvt sampleMember sampleChannel (rules sampleConfig)).trace) ∧
        (∀ e ∈ (ruleLoop sampleEvt sampleMember sampleChannel (rules sampleConfig)).trace,
          e.isLoopEffect = true ∧ e.isLock = false ∧ e.isDispatch = false) ∧
        (∀ e ∈ post,
          e.isLock = false ∧ e.isRuleCall = false ∧
            (e.isDispatch = true ∨ e.isLog = true)) ∧
        (HandleMessageCreate (sampleWorld sampleConfig none none none) [] sampleEvt).count
          Effect.RLock = 1 ∧
        (HandleMessageCreate (sampleWorld sampleConfig none none none) [] sampleEvt).count
          Effect.RUnlock = 1 :=
  ⟨sampleWorld_reaches sampleConfig rfl none none none,
    (lock_held_for_loop_only (sampleWorld sampleConfig none none none) [] sampleEvt).2.2
      sampleChannel sampleGuild sampleConfig sampleMember
      (sampleWorld_reaches sampleConfig rfl none none none)⟩

/-- Counterexample of C9: the deletion request and the private notice of the Mute
branch both return an error, both calls are made, and the run logs nothing. -/
theorem dispatch_errors_not_all_logged :
    (sampleWorld sampleMuteConfig (some "delete failed") (some "dm failed")
        none).ChannelMessageDelete sampleEvt.ChannelID sampleEvt.ID = some "delete failed" ∧
      Effect.ChannelMessageDelete sampleEvt.ChannelID sampleEvt.ID ∈
        HandleMessageCreate
          (sampleWorld sampleMuteConfig (some "delete failed") (some "dm failed") none) []
          sampleEvt ∧
      (sampleWorld sampleMuteConfig (some "delete failed") (some "dm failed") none).SendDM
          sampleMember.User.ID
          (noticeMute sampleGuild
            (ruleLoop sampleEvt sampleMember sampleChannel
              (rules sampleMuteConfig)).punishMsg) = some "dm failed" ∧
      Effect.SendDM sampleMember.User.ID
          (noticeMute sampleGuild
            (ruleLoop sampleEvt sampleMember sampleChannel
              (rules sampleMuteConfig)).punishMsg) ∈
        HandleMessageCreate
          (sampleWorld sampleMuteConfig (some "delete failed") (some "dm failed") none) []
          sampleEvt ∧
      ∀ e ∈ HandleMessageCreate
          (sampleWorld sampleMuteConfig (some "delete failed") (some "dm failed") none) []
          sampleEvt, e.isLog = false := by
  decide

/-- C9, amended: in a run that reaches dispatch, whatever the deletion request
and the private notice of the Mute branch return, the calls of the branch are
all made, and the log entry that follows them reports the error of the last
call of the branch (the private notice for None, the mute, kick or ban action
otherwise) and nothing else. -/
theorem last_dispatch_error_logged (w : World) (cache : Cache) (evt : MessageCreate)
    (channel : Channel) (guild : Guild) (config : Config) (member : Member)
    (h : Reaches w cache evt channel guild config member)
    (hdel : (ruleLoop evt member channel (rules config)).del = true) :
    ((ruleLoop evt member channel (rules config)).highestPunish = PunishNone →
        dispatch w evt channel guild member (ruleLoop evt member channel (rules config)) =
          [Effect.ChannelMessageDelete evt.ChannelID evt.ID,
            Effect.SendDM member.User.ID
              (noticeNone guild (ruleLoop evt member channel (rules config)).punishMsg)] ++
          logPunishErr (w.SendDM member.User.ID
            (noticeNone guild (ruleLoop evt member channel (rules config)).punishMsg))) ∧
      ((ruleLoop evt member channel (rules config)).highestPunish = PunishMute →
        dispatch w evt channel guild member (ruleLoop evt member channel (rules config)) =
          [Effect.ChannelMessageDelete evt.ChannelID evt.ID,
            Effect.SendDM member.User.ID
              (noticeMute guild (ruleLoop evt member channel (rules config)).punishMsg),
            Effect.MuteUnmuteUser true channel.GuildID channel.ID "Automod"
              (ruleLoop evt member channel (rules config)).punishMsg member
              (ruleLoop evt member channel (rules config)).muteDuration] ++
          logPunishErr (w.MuteUnmuteUser true channel.GuildID channel.ID "Automod"
            (ruleLoop evt member channel (rules config)).punishMsg member
            (ruleLoop evt member channel (rules config)).muteDuration)) ∧
      ((ruleLoop evt member channel (rules config)).highestPunish = PunishKick →
        dispatch w evt channel guild member (ruleLoop evt member channel (rules config)) =
          [Effect.ChannelMessageDelete evt.ChannelID evt.ID,
            Effect.KickUser channel.GuildID channel.ID "Automod"
              (ruleLoop evt member channel (rules config)).punishMsg member.User] ++
          logPunishErr (w.KickUser channel.GuildID channel.ID "Automod"
            (ruleLoop evt member channel (rules config)).punishMsg member.User)) ∧
      ((ruleLoop evt member channel (rules config)).highestPunish = PunishBan →
        dispatch w evt channel guild member (ruleLoop evt member channel (rules config)) =
          [Effect.ChannelMessageDelete evt.ChannelID evt.ID,
            Effect.BanUser channel.GuildID channel.ID "Automod"
              (ruleLoop evt member channel (rules config)).punishMsg member.User] ++
          logPunishErr (w.BanUser channel.GuildID channel.ID "Automod"
            (ruleLoop evt member channel (rules config)).punishMsg member.User)) ∧
      HandleMessageCreate w cache evt =
        (CachedGetConfig w cache guild.ID).2.2 ++
          Effect.RLock :: ((ruleLoop evt member channel (rules config)).trace ++
            Effect.RUnlock :: dispatch w evt channel guild member
              (ruleLoop evt member channel (rules config))) := by
  refine ⟨?_, ?_, ?_, ?_,
    HandleMessageCreate_of_reaches w cache evt channel guild config member h⟩ <;>
    intro hp <;> simp [dispatch, punish, hdel, hp]

/-- Witness of C9, amended: deletion, notice and mute all fail; all three calls
are made and only the error of the mute is logged. -/
theorem last_dispatch_error_logged_witness :
    Reaches (sampleWorld sampleMuteConfig (some "delete failed") (some "dm failed")
        (some "mute failed")) [] sampleEvt sampleChannel sampleGuild sampleMuteConfig
        sampleMember ∧
      (ruleLoop sampleEvt sampleMember sampleChannel (rules sampleMuteConfig)).del = true ∧
      (ruleLoop sampleEvt sampleMember sampleChannel (rules sampleMuteConfig)).highestPunish =
        PunishMute ∧
      dispatch (sampleWorld sampleMuteConfig (some "delete failed") (some "dm failed")
          (some "mute failed")) sampleEvt sampleChannel sampleGuild sampleMember
          (ruleLoop sampleEvt sampleMember sampleChannel (rules sampleMuteConfig)) =
        [Effect.ChannelMessageDelete sampleEvt.ChannelID sampleEvt.ID,
          Effect.SendDM sampleMember.User.ID
            (noticeMute sampleGuild
              (ruleLoop sampleEvt sampleMember sampleChannel (rules sampleMuteConfig)).punishMsg),
          Effect.MuteUnmuteUser true sampleChannel.GuildID sampleChannel.ID "Automod"
            (ruleLoop sampleEvt sampleMember sampleChannel (rules sampleMuteConfig)).punishMsg
            sampleMember
            (ruleLoop sampleEvt sampleMember sampleChannel
              (rules sampleMuteConfig)).muteDuration] ++
        logPunishErr ((sampleWorld sampleMuteConfig (some "delete failed") (some "dm failed")
          (some "mute failed")).MuteUnmuteUser true sampleChannel.GuildID sampleChannel.ID
          "Automod"
          (ruleLoop sampleEvt sampleMember sampleChannel (rules sampleMuteConfig)).punishMsg
          sampleMember
          (ruleLoop sampleEvt sampleMember sampleChannel (rules sampleMuteConfig)).muteDuration) :=
  ⟨sampleWorld_reaches sampleMuteConfig rfl _ _ _, by decide, by decide,
    (last_dispatch_error_logged
      (sampleWorld sampleMuteConfig (some "delete failed") (some "dm failed")
        (some "mute failed")) [] sampleEvt sampleChannel sampleGuild sampleMuteConfig
      sampleMember (sampleWorld_reaches sampleMuteConfig rfl _ _ _) (by decide)).2.1
      (by decide)⟩

/-! A rule whose `Check` fails, against the same rule ignored. -/

theorem ruleLoopFrom_append (evt : MessageCreate) (member : Member) (channel : Channel)
    (st : LoopState) (rs₁ rs₂ : List (RuleKind × Rule)) :
    ruleLoopFrom evt member channel st (rs₁ ++ rs₂) =
      ruleLoopFrom evt member channel (ruleLoopFrom evt member channel st rs₁) rs₂ := by
  simp [ruleLoopFrom, List.foldl_append]

theorem ruleLoopFrom_congr (evt : MessageCreate) (member : Member) (channel : Channel)
    (rs : List (RuleKind × Rule)) (s t : LoopState)
    (h1 : s.highestPunish = t.highestPunish) (h2 : s.muteDuration = t.muteDuration)
    (h3 : s.punishMsg = t.punishMsg) :
    (ruleLoopFrom evt member channel s rs).highestPunish =
        (ruleLoopFrom evt member channel t rs).highestPunish ∧
      (ruleLoopFrom evt member channel s rs).muteDuration =
        (ruleLoopFrom evt member channel t rs).muteDuration ∧
      (ruleLoopFrom evt member channel s rs).punishMsg =
        (ruleLoopFrom evt member channel t rs).punishMsg := by
  induction rs generalizing s t with
  | nil => exact ⟨h1, h2, h3⟩
  | cons r rs ih =>
    rw [ruleLoopFrom_cons, ruleLoopFrom_cons]
    apply ih
    · rw [loopBody_highestPunish, loopBody_highestPunish, h1]
    · rw [loopBody_muteDuration, loopBody_muteDuration, h1, h2]
    · rw [loopBody_punishMsg, loopBody_punishMsg, h3]

theorem triggered_of_err (evt : MessageCreate) (member : Member) (channel : Channel)
    (k : RuleKind) (r : Rule) (e : String) (herr : (r.Check evt channel).err = some e) :
    triggered evt member channel (k, r) = false := by
  simp [triggered, herr]

theorem triggered_ignoredRule (evt : MessageCreate) (member : Member) (channel : Channel)
    (k : RuleKind) (r : Rule) :
    triggered evt member channel (k, ignoredRule r) = false := by
  simp [triggered, ignoredRule]

theorem loopBody_untriggered (evt : MessageCreate) (member : Member) (channel : Channel)
    (st : LoopState) (kr : RuleKind × Rule) (h : triggered evt member channel kr = false) :
    (loopBody evt member channel st kr).highestPunish = st.highestPunish ∧
      (loopBody evt member channel st kr).muteDuration = st.muteDuration ∧
      (loopBody evt member channel st kr).punishMsg = st.punishMsg := by
  rw [loopBody_highestPunish, loopBody_muteDuration, loopBody_punishMsg]
  simp [h]

/-- Counterexample of C3: the invite rule fails with its deletion flag set; the
deletion decision is true and the message is deleted, while with the same rule
ignored the decision is false and nothing is deleted. -/
theorem failed_check_still_deletes :
    (sampleErrConfig.Invite.Check sampleEvt sampleChannel).err = some "redis down" ∧
      sampleErrConfig.Invite.ShouldIgnore sampleEvt sampleMember = false ∧
      (ruleLoop sampleEvt sampleMember sampleChannel (rules sampleErrConfig)).del = true ∧
      (ruleLoop sampleEvt sampleMember sampleChannel (rules sampleIgnoredConfig)).del = false ∧
      Effect.ChannelMessageDelete sampleEvt.ChannelID sampleEvt.ID ∈
        HandleMessageCreate (sampleWorld sampleErrConfig none none none) [] sampleEvt ∧
      Effect.ChannelMessageDelete sampleEvt.ChannelID sampleEvt.ID ∉
        HandleMessageCreate (sampleWorld sampleIgnoredConfig none none none) [] sampleEvt := by
  decide

/-- C3, amended: a rule that is not ignored and whose `Check` returns an error
leaves the final punishment, the mute duration and the combined message as they
are with that rule ignored, and every later rule of the list still gets its
`ShouldIgnore` call and, when not ignored, its `Check` call; the deletion
decision is the one with the rule ignored or-ed with the deletion flag the
failed `Check` returned. -/
theorem failed_check_keeps_deletion_flag_only (evt : MessageCreate) (member : Member)
    (channel : Channel) (before after : List (RuleKind × Rule)) (k : RuleKind) (r : Rule)
    (e : String) (hig : r.ShouldIgnore evt member = false)
    (herr : (r.Check evt channel).err = some e) :
    (ruleLoop evt member channel (before ++ (k, r) :: after)).highestPunish =
        (ruleLoop evt member channel (before ++ (k, ignoredRule r) :: after)).highestPunish ∧
      (ruleLoop evt member channel (before ++ (k, r) :: after)).muteDuration =
        (ruleLoop evt member channel (before ++ (k, ignoredRule r) :: after)).muteDuration ∧
      (ruleLoop evt member channel (before ++ (k, r) :: after)).punishMsg =
        (ruleLoop evt member channel (before ++ (k, ignoredRule r) :: after)).punishMsg ∧
      (ruleLoop evt member channel (before ++ (k, r) :: after)).del =
        ((ruleLoop evt member channel (before ++ (k, ignoredRule r) :: after)).del ||
          (r.Check evt channel).d) ∧
      (∀ kr ∈ after,
        Effect.ShouldIgnore kr.1 ∈
          (ruleLoop evt member channel (before ++ (k, r) :: after)).trace) ∧
      (∀ kr ∈ after, kr.2.ShouldIgnore evt member = false →
        Effect.Check kr.1 ∈
          (ruleLoop evt member channel (before ++ (k, r) :: after)).trace) := by
  have htr := ruleLoop_trace evt member channel (before ++ (k, r) :: after)
  have hA := loopBody_untriggered evt member channel
    (ruleLoopFrom evt member channel LoopState.init before) (k, r)
    (triggered_of_err evt member channel k r e herr)
  have hB := loopBody_untriggered evt member channel
    (ruleLoopFrom evt member channel LoopState.init before) (k, ignoredRule r)
    (triggered_ignoredRule evt member channel k r)
  have hc := ruleLoopFrom_congr evt member channel after
    (loopBody evt member channel (ruleLoopFrom evt member channel LoopState.init before) (k, r))
    (loopBody evt member channel (ruleLoopFrom evt member channel LoopState.init before)
      (k, ignoredRule r))
    (by rw [hA.1, hB.1]) (by rw [hA.2.1, hB.2.1]) (by rw [hA.2.2, hB.2.2])
  refine ⟨?_, ?_, ?_, ?_, ?_, ?_⟩
  · simpa [ruleLoop, ruleLoopFrom_append, ruleLoopFrom_cons] using hc.1
  · simpa [ruleLoop, ruleLoopFrom_append, ruleLoopFrom_cons] using hc.2.1
  · simpa [ruleLoop, ruleLoopFrom_append, ruleLoopFrom_cons] using hc.2.2
  · rw [ruleLoop_del, ruleLoop_del]
    simp only [List.any_append, List.any_cons, asksDeletion, ignoredRule, hig]
    cases List.any before (asksDeletion evt member channel) <;>
      cases (r.Check evt channel).d <;> simp [asksDeletion]
  · intro kr hkr
    exact htr.1 kr (List.mem_append_right _ (List.mem_cons_of_mem _ hkr))
  · intro kr hkr hi
    exact htr.2.1 kr (List.mem_append_right _ (List.mem_cons_of_mem _ hkr)) hi

/-- Witness of C3, amended: the failing invite rule of the sample config. -/
theorem failed_check_keeps_deletion_flag_only_witness :
    sampleErrConfig.Invite.ShouldIgnore sampleEvt sampleMember = false ∧
      (sampleErrConfig.Invite.Check sampleEvt sampleChannel).err = some "redis down" ∧
      [(RuleKind.spam, sampleErrConfig.Spam)] ++ (RuleKind.invite, sampleErrConfig.Invite) ::
          [(RuleKind.mention, sampleErrConfig.Mention), (RuleKind.links, sampleErrConfig.Links),
            (RuleKind.words, sampleErrConfig.Words), (RuleKind.sites, sampleErrConfig.Sites)] =
        rules sampleErrConfig ∧
      (ruleLoop sampleEvt sampleMember sampleChannel
          ([(RuleKind.spam, sampleErrConfig.Spam)] ++
            (RuleKind.invite, sampleErrConfig.Invite) ::
            [(RuleKind.mention, sampleErrConfig.Mention),
              (RuleKind.links, sampleErrConfig.Links),
              (RuleKind.words, sampleErrConfig.Words),
              (RuleKind.sites, sampleErrConfig.Sites)])).del =
        ((ruleLoop sampleEvt sampleMember sampleChannel
          ([(RuleKind.spam, sampleErrConfig.Spam)] ++
            (RuleKind.invite, ignoredRule sampleErrConfig.Invite) ::
            [(RuleKind.mention, sampleErrConfig.Mention),
              (RuleKind.links, sampleErrConfig.Links),
              (RuleKind.words, sampleErrConfig.Words),
              (RuleKind.sites, sampleErrConfig.Sites)])).del ||
          (sampleErrConfig.Invite.Check sampleEvt sampleChannel).d) :=
  ⟨rfl, rfl, rfl,
    (failed_check_keeps_deletion_flag_only sampleEvt sampleMember sampleChannel
      [(RuleKind.spam, sampleErrConfig.Spam)]
      [(RuleKind.mention, sampleErrConfig.Mention), (RuleKind.links, sampleErrConfig.Links),
        (RuleKind.words, sampleErrConfig.Words), (RuleKind.sites, sampleErrConfig.Sites)]
      RuleKind.invite sampleErrConfig.Invite "redis down" rfl rfl).2.2.2.1⟩

/-! The cache: what the lookup stores and what the rules-updated handler evicts. -/

theorem Cache.Get_cons (e : String × Config) (c : Cache) (k : String) :
    Cache.Get (e :: c) k = if e.1 = k then some e.2 else Cache.Get c k := by
  unfold Cache.Get
  by_cases h : e.1 = k <;> simp [List.find?_cons, h]

theorem Cache.Delete_cons (e : String × Config) (c : Cache) (k : String) :
    Cache.Delete (e :: c) k = if e.1 = k then Cache.Delete c k else e :: Cache.Delete c k := by
  unfold Cache.Delete
  by_cases h : e.1 = k <;> simp [List.filter_cons, h]

theorem Cache.Get_Delete_of_ne (c : Cache) (k k' : String) (h : k' ≠ k) :
    Cache.Get (Cache.Delete c k') k = Cache.Get c k := by
  induction c with
  | nil => rfl
  | cons e c ih =>
    rw [Cache.Delete_cons, Cache.Get_cons]
    by_cases h1 : e.1 = k'
    · rw [if_pos h1, ih, if_neg (fun h3 => h (h1.symm.trans h3))]
    · rw [if_neg h1, Cache.Get_cons, ih]

/-- C4, as the code behaves: on a miss with a successful load, `CachedGetConfig`
returns the loaded config with its site and word rules compiled, leaves the
cache as it was, so the key is still missing, and the next call makes the
external load `GetConfig` again. -/
theorem cached_get_config_never_stores (w : World) (cache : Cache) (gID : String)
    (conf : Config) (hmiss : cache.Get (w.KeyConfig gID) = none)
    (hload : w.GetConfig gID = Except.ok conf) :
    (CachedGetConfig w cache gID).1 =
        Except.ok { conf with Sites := w.GetCompiled conf.Sites,
                              Words := w.GetCompiled conf.Words } ∧
      (CachedGetConfig w cache gID).2.1 = cache ∧
      Cache.Get (CachedGetConfig w cache gID).2.1 (w.KeyConfig gID) = none ∧
      Effect.GetConfig gID ∈
        (CachedGetConfig w (CachedGetConfig w cache gID).2.1 gID).2.2 := by
  have hc : (CachedGetConfig w cache gID).2.1 = cache := CachedGetConfig_cache w cache gID
  rw [hc]
  refine ⟨?_, rfl, hmiss, ?_⟩ <;> simp [CachedGetConfig, hmiss, hload]

/-- Witness of C4: the empty cache and a store that holds the sample config. -/
theorem cached_get_config_never_stores_witness :
    Cache.Get [] ((sampleWorld sampleConfig none none none).KeyConfig "g1") = none ∧
      (sampleWorld sampleConfig none none none).GetConfig "g1" = Except.ok sampleConfig ∧
      (CachedGetConfig (sampleWorld sampleConfig none none none) [] "g1").2.1 = [] ∧
      Effect.GetConfig "g1" ∈
        (CachedGetConfig (sampleWorld sampleConfig none none none)
          (CachedGetConfig (sampleWorld sampleConfig none none none) [] "g1").2.1 "g1").2.2 :=
  ⟨rfl, rfl,
    (cached_get_config_never_stores (sampleWorld sampleConfig none none none) [] "g1"
      sampleConfig rfl rfl).2.1,
    (cached_get_config_never_stores (sampleWorld sampleConfig none none none) [] "g1"
      sampleConfig rfl rfl).2.2.2⟩

/-- C6, as the code behaves: when the key `KeyAllRules G` the handler evicts
differs from the key `KeyConfig G` the lookup reads, a config cached under
`KeyConfig G` survives the rules-updated event, and the next `CachedGetConfig G`
returns it with a cache read as its only call, without the external load. -/
theorem rules_update_keeps_cached_config (w : World) (cache : Cache) (G : String)
    (stale : Config) (hkeys : w.KeyAllRules G ≠ w.KeyConfig G)
    (hcached : cache.Get (w.KeyConfig G) = some stale) :
    CachedGetConfig w (HandleUpdateAutomodRules w cache { TargetGuild := G }) G =
      (Except.ok stale, HandleUpdateAutomodRules w cache { TargetGuild := G },
        [Effect.CacheGet (w.KeyConfig G)]) ∧
      Effect.GetConfig G ∉
        (CachedGetConfig w (HandleUpdateAutomodRules w cache { TargetGuild := G }) G).2.2 := by
  have hget : Cache.Get (HandleUpdateAutomodRules w cache { TargetGuild := G })
      (w.KeyConfig G) = some stale := by
    rw [HandleUpdateAutomodRules, Cache.Get_Delete_of_ne _ _ _ hkeys, hcached]
  constructor
  · simp [CachedGetConfig, hget]
  · simp [CachedGetConfig, hget]

/-- Witness of C6: the mute config is cached for guild g1, the store holds the
sample config; after the rules-updated event the lookup still returns the mute
config and does not load. -/
theorem rules_update_keeps_cached_config_witness :
    (sampleWorld sampleConfig none none none).KeyAllRules "g1" ≠
        (sampleWorld sampleConfig none none none).KeyConfig "g1" ∧
      Cache.Get [("automod_config:g1", sampleMuteConfig)]
        ((sampleWorld sampleConfig none none none).KeyConfig "g1") = some sampleMuteConfig ∧
      (sampleWorld sampleConfig none none none).GetConfig "g1" = Except.ok sampleConfig ∧
      (CachedGetConfig (sampleWorld sampleConfig none none none)
          (HandleUpdateAutomodRules (sampleWorld sampleConfig none none none)
            [("automod_config:g1", sampleMuteConfig)] { TargetGuild := "g1" }) "g1").1 =
        Except.ok sampleMuteConfig ∧
      Effect.GetConfig "g1" ∉
        (CachedGetConfig (sampleWorld sampleConfig none none none)
          (HandleUpdateAutomodRules (sampleWorld sampleConfig none none none)
            [("automod_config:g1", sampleMuteConfig)] { TargetGuild := "g1" }) "g1").2.2 :=
  ⟨by decide, rfl, rfl,
    congrArg Prod.fst (rules_update_keeps_cached_config
      (sampleWorld sampleConfig none none none) [("automod_config:g1", sampleMuteConfig)]
      "g1" sampleMuteConfig (by decide) rfl).1,
    (rules_update_keeps_cached_config
      (sampleWorld sampleConfig none none none) [("automod_config:g1", sampleMuteConfig)]
      "g1" sampleMuteConfig (by decide) rfl).2⟩

end Automod
